import Mathlib

/-!
Shallow embedding of the kitob-tg-bot submission/publish/reconciliation
pipeline (src/bookbot.py) and proofs about it.

Conventions of the embedding:
* Python strings are Lean `String`; `caption.split('\n')` and `.strip()` are
  translated to `splitOnChar`/`pyStrip` over `String.data`.
* Python `None` becomes `Option.none`; Python truthiness of an optional
  string is `pyTruthy` (`None` and `""` are falsy).
* The SQLite/PostgreSQL `posts` table becomes a `List PostRecord`; a row id is
  its index in the list.  Timestamps are `Int` seconds; `julianday(a) <=
  julianday(b)` becomes `a ≤ b`.  JSON-encoded list columns are stored as the
  lists themselves (`Option` for a NULL column).
* The Telegram gateway is a parameter: sending is a function
  `SendCall → Option (List Nat)` (`none` = the call raised, caught by the
  code), deleting is `Nat → DeleteResult`.
-/

namespace BookBot

/-- Python whitespace test used by `str.strip()` (ASCII whitespace). -/
def pyIsSpace (c : Char) : Bool :=
  c == ' ' || c == '\t' || c == '\n' || c == '\r' || c == '\x0b' || c == '\x0c'

/-- Translation of Python `s.split(sep)` for a one-character separator:
splits on every occurrence, keeping empty pieces (`"".split('\n') = [""]`). -/
def splitOnChar (c : Char) : List Char → List (List Char)
  | [] => [[]]
  | x :: xs =>
    match splitOnChar c xs with
    | [] => [[x]]
    | y :: ys => if x == c then [] :: y :: ys else (x :: y) :: ys

/-- Translation of Python `str.strip()`. -/
def pyStrip (s : List Char) : List Char :=
  ((s.dropWhile pyIsSpace).reverse.dropWhile pyIsSpace).reverse

/-- `[line.strip() for line in text.split('\n')]` (bookbot.py:362, 463, 651). -/
def pyLines (text : String) : List (List Char) :=
  (splitOnChar '\n' text.data).map pyStrip

/-- Python truthiness of an optional string: `None` and `""` are falsy. -/
def pyTruthy : Option String → Bool
  | none => false
  | some s => !(s == "")

/-- One inbound photo message: its Telegram message id, the file id of its
highest-resolution photo (`photo[-1].file_id`), and its optional caption. -/
structure Msg where
  messageId : Nat
  fileId : String
  caption : Option String
deriving DecidableEq

/-- The `processed_data` dict stored back into `bot_data['media_groups']`
after a group is handled (bookbot.py:350-355, 402-405). -/
structure ProcessedData where
  fileIds : List String
  pendingText : Option String
  userId : Nat
deriving DecidableEq

/-- One entry of `context.bot_data['media_groups']`.  Python stores a dict
whose key set changes over the entry's lifetime, so every field is an
`Option`: `none` means the key is absent (reading it raises `KeyError`).
The `timestamp` and `scheduled_job` keys are never read by the logic
modelled here and are omitted. -/
structure GroupDict where
  photos : Option (List Msg)
  caption : Option (Option String)
  user_id : Option Nat
  processed : Option Bool
  processed_data : Option ProcessedData
deriving DecidableEq

/-- The fresh entry created for an unseen media-group id (bookbot.py:268-276). -/
def newGroupDict (uid : Nat) : GroupDict :=
  { photos := some [], caption := some none, user_id := some uid,
    processed := some false, processed_data := none }

/-- `buffer_media_group` (bookbot.py:256-305) restricted to one group key:
create the entry if absent, append the arriving message to `photos`, and set
the caption if the message carries a truthy caption and the group caption is
falsy.  A `KeyError` (reading a key the entry no longer has) is caught by the
handler; the `Bool` result records that this happened.  The debounce-timer
bookkeeping carries no data and is not modelled. -/
def buffer_media_group (st : Option GroupDict) (m : Msg) (uid : Nat) :
    Option GroupDict × Bool :=
  let g0 := st.getD (newGroupDict uid)
  match g0.photos with
  | none => (some g0, true)
  | some ps =>
    let g1 := { g0 with photos := some (ps ++ [m]) }
    if pyTruthy m.caption then
      match g1.caption with
      | none => (some g1, true)
      | some cap =>
        if pyTruthy cap then (some g1, false)
        else (some { g1 with caption := some m.caption }, false)
    else (some g1, false)

/-- One row of the `posts` table (database.py:285-299).  `created_at` defaults
to the insertion time, `repost_count` to 0, `last_repost` to NULL. -/
structure PostRecord where
  user_id : Nat
  message_id : Nat
  channel_message_id : Nat
  channel_message_ids : Option (List Nat)
  text_content : String
  image_path : Option String
  file_ids : Option (List String)
  created_at : Int
  repost_count : Nat
  last_repost : Option Int
deriving DecidableEq

/-- The row `save_post` inserts (bookbot.py:726-745): caller-supplied
provenance, text and file ids; `channel_message_ids` NULL; defaults for the
rest. -/
def mkSavedRecord (uid mid cmid : Nat) (text : String) (fileIds : List String)
    (now : Int) : PostRecord :=
  { user_id := uid, message_id := mid, channel_message_id := cmid,
    channel_message_ids := none, text_content := text, image_path := none,
    file_ids := some fileIds, created_at := now, repost_count := 0,
    last_repost := none }

/-- `save_post` (bookbot.py:726-745): INSERT the row, return the new row id. -/
def save_post (db : List PostRecord) (uid mid cmid : Nat) (text : String)
    (fileIds : List String) (now : Int) : List PostRecord × Nat :=
  (db ++ [mkSavedRecord uid mid cmid text fileIds now], db.length)

/-- Row-level effect of `update_channel_message_id` (bookbot.py:712-724). -/
def applyUpdateChannelMsg (cmid : Nat) (allIds : Option (List Nat))
    (r : PostRecord) : PostRecord :=
  match allIds with
  | some l => { r with channel_message_id := cmid, channel_message_ids := some l }
  | none => { r with channel_message_id := cmid }

/-- UPDATE ... WHERE id = i, as list update at index `i`. -/
def dbUpdate (db : List PostRecord) (i : Nat) (f : PostRecord → PostRecord) :
    List PostRecord :=
  match db.get? i with
  | some r => db.set i (f r)
  | none => db

/-- `update_channel_message_id` (bookbot.py:712-724). -/
def update_channel_message_id (db : List PostRecord) (post_id cmid : Nat)
    (allIds : Option (List Nat)) : List PostRecord :=
  dbUpdate db post_id (applyUpdateChannelMsg cmid allIds)

/-- User-facing message literals of bookbot.py (apostrophes written `\x27`;
the emoji bytes are kept as the source file has them). -/
def timeoutPostMsg : String :=
  "‚ùå Kanalga joylashtirish vaqtida xatolik. Qaytadan urinib ko\x27ring."

/-- Returned when `post_to_channel` yields no message (bookbot.py:565). -/
def channelFailMsg : String := "‚ùå Kanalga joylashtirishda xatolik."

/-- Success message for a multi-photo media group (bookbot.py:559). -/
def successMsgMulti (n : Nat) : String :=
  "‚úÖ Kitob muvaffaqiyatli kanalga joylashtirildi! (" ++ toString n ++ " rasm)"

/-- Success message for a single photo (bookbot.py:561). -/
def successMsgSingle : String := "‚úÖ Kitob muvaffaqiyatli kanalga joylashtirildi!"

/-- Rejection when the caption has fewer than 8 lines (bookbot.py:387, 483). -/
def rejectFewLinesMsg : String :=
  "‚ùå Kamida 8 qator matn kerak. Rasm bilan birga to\x27liq matnni yuboring va qaytadan urinib ko\x27ring."

/-- Rejection when no caption was supplied (bookbot.py:394-396, 487-489). -/
def rejectNoTextMsg : String :=
  "‚ùå **Matn yuborilmadi!**\n\nRasm bilan birga matnni ham yuboring va qaytadan urinib ko\x27ring."

/-- The formatted channel post built by `post_to_channel` (bookbot.py:657-668)
from the trimmed caption lines: slot 0 is the title, 1 the author, 2 the page
count, 3 the condition, 4 the cover type, 5 the publication year, 6 the extra
notes and 7 the price (with the fixed `000 so ªm` multiplier suffix). -/
def formatPost (lines : List (List Char)) : String :=
  "*#kitob*\n" ++
  "üìú *Nomi:* " ++ String.mk (lines.getD 0 []) ++ "\n" ++
  "üë• *Muallifi:* " ++ String.mk (lines.getD 1 []) ++ "\n" ++
  "üìñ *Beti:* " ++ String.mk (lines.getD 2 []) ++ "\n" ++
  "üïµ‚Äç‚ôÇ *Holati:* " ++ String.mk (lines.getD 3 []) ++ "\n" ++
  "üìö *Muqovasi:* " ++ String.mk (lines.getD 4 []) ++ "\n" ++
  "üóì *Nashr etilgan yili:* " ++ String.mk (lines.getD 5 []) ++ "\n" ++
  "üìù *Qo\x27shimcha ma\x27lumot:* " ++ String.mk (lines.getD 6 []) ++ "\n" ++
  "üé≠ *Murojaat uchun:* @Yollovchi\n" ++
  "üí∞ *Narxi:* *" ++ String.mk (lines.getD 7 []) ++ " 000 so ªm*"

/-- One outbound publish call to the Telegram gateway: the ordered media
(file id, optional caption) items of `send_media_group`, or the single
`send_photo` (bookbot.py:670-706), flattened to the ordered file ids plus the
formatted text. -/
structure SendCall where
  mediaRefs : List String
  text : String
deriving DecidableEq

/-- The `InputMediaPhoto` list of bookbot.py:673-687: every file id in order,
the first one carrying the caption. -/
def buildMediaGroup (fileIds : List String) (formatted : String) :
    List (String × Option String) :=
  fileIds.enum.map (fun p => (p.2, if p.1 = 0 then some formatted else none))

/-- `post_to_channel` (bookbot.py:648-710).  Re-splits and trims the stored
text; returns `None` (without a gateway call) when it has fewer than 8 lines.
Otherwise formats the post and sends one media group (more than one file id)
or one photo.  `send` is the gateway; `send _ = none` models a raised
`TelegramError`, caught by the function's own handler, which also covers the
`IndexError` of `file_ids[0]` on an empty list.  Returns the message ids and
the list of gateway calls made. -/
def post_to_channel (send : SendCall → Option (List Nat)) (text : String)
    (fileIds : List String) : Option (List Nat) × List SendCall :=
  let lines := pyLines text
  if lines.length < 8 then (none, [])
  else
    let formatted := formatPost lines
    if 1 < fileIds.length then
      let call : SendCall := ⟨(buildMediaGroup fileIds formatted).map Prod.fst, formatted⟩
      (send call, [call])
    else
      match fileIds with
      | [] => (none, [])
      | f :: _ =>
        let call : SendCall := ⟨[f], formatted⟩
        (send call, [call])

/-- Result of `post_book_content`: the database after the operation, the
user-facing message returned, and the publish calls issued. -/
structure PBCResult where
  db : List PostRecord
  userMsg : String
  calls : List SendCall
deriving DecidableEq

/-- `post_book_content` (bookbot.py:521-569).  Saves the record first (with
`channel_message_id = 0` and NULL `channel_message_ids`), then posts to the
channel under `asyncio.wait_for` with a 60s bound; `timedOut = true` models
that timeout (the awaited publish never completes, so no call is recorded).
On a truthy result the new message ids are written back; otherwise the
failure message is returned and the row keeps its empty publish fields. -/
def post_book_content (timedOut : Bool) (send : SendCall → Option (List Nat))
    (now : Int) (text : String) (photosCount : Nat) (fileIds : List String)
    (uid mid : Nat) (isMediaGroup : Bool) (db : List PostRecord) : PBCResult :=
  let saved := save_post db uid mid 0 text fileIds now
  let db1 := saved.1
  let post_id := saved.2
  if timedOut then ⟨db1, timeoutPostMsg, []⟩
  else
    match post_to_channel send text fileIds with
    | (some l, calls) =>
      if l.isEmpty then ⟨db1, channelFailMsg, calls⟩
      else
        let db2 := update_channel_message_id db1 post_id (l.headD 0) (some l)
        let msg := if isMediaGroup && decide (1 < photosCount) then
          successMsgMulti photosCount else successMsgSingle
        ⟨db2, msg, calls⟩
    | (none, calls) => ⟨db1, channelFailMsg, calls⟩

/-- The entry left in `bot_data['media_groups']` after `process_media_group`
handled the group (bookbot.py:402-405): only `processed_data` (and the
unmodelled timestamp) — in particular no `photos` and no `processed` key. -/
def processedEntry (pd : ProcessedData) : GroupDict :=
  { photos := none, caption := none, user_id := none, processed := none,
    processed_data := some pd }

/-- Result of one debounce-expiry invocation of `process_media_group`: the
group entry afterwards (`none` = deleted), the database, the user-facing
replies sent, and the publish calls issued. -/
structure PMGResult where
  group : Option GroupDict
  db : List PostRecord
  replies : List String
  calls : List SendCall
deriving DecidableEq

/-- `process_media_group` (bookbot.py:307-415) for one group key.  Returns
silently when the entry is gone, already marked processed, or lacks a key the
body reads (the `KeyError` is caught by the surrounding handler).  With a
caption of at least 8 trimmed lines it auto-posts via `post_book_content`
and replies with its result; otherwise it replies with the matching
rejection.  In every handled branch the entry is replaced by the
`processed_data`-only dict of bookbot.py:402-405. -/
def process_media_group (timedOut : Bool) (send : SendCall → Option (List Nat))
    (now : Int) (st : Option GroupDict) (db : List PostRecord) : PMGResult :=
  match st with
  | none => ⟨none, db, [], []⟩
  | some g =>
    if g.processed.getD false then ⟨some g, db, [], []⟩
    else
      match g.photos with
      | none => ⟨some g, db, [], []⟩
      | some photos =>
        match g.caption with
        | none => ⟨some g, db, [], []⟩
        | some caption =>
          match g.user_id with
          | none => ⟨some g, db, [], []⟩
          | some uid =>
            if photos.isEmpty then ⟨none, db, [], []⟩
            else
              let firstMsgId := (photos.headD ⟨0, "", none⟩).messageId
              let fileIds := photos.map Msg.fileId
              let pd : ProcessedData := ⟨fileIds, caption, uid⟩
              match caption with
              | some c =>
                if 8 ≤ (pyLines c).length then
                  let r := post_book_content timedOut send now c photos.length
                    fileIds uid firstMsgId true db
                  ⟨some (processedEntry pd), r.db, [r.userMsg], r.calls⟩
                else
                  ⟨some (processedEntry pd), db, [rejectFewLinesMsg], []⟩
              | none =>
                ⟨some (processedEntry pd), db, [rejectNoTextMsg], []⟩

/-- Outcome of one `bot.delete_message` call as the code can observe it:
success, a `BadRequest` carrying its error text, or any other exception
(bookbot.py:813-832). -/
inductive DeleteResult where
  | ok
  | badRequest (msg : String)
  | otherExc
deriving DecidableEq

/-- List-of-chars version of `startsWith`. -/
def startsWithCh : List Char → List Char → Bool
  | [], _ => true
  | _ :: _, [] => false
  | n :: ns, h :: hs => n == h && startsWithCh ns hs

/-- Substring test (`needle in hay` of Python). -/
def containsSeq (needle : List Char) : List Char → Bool
  | [] => needle.isEmpty
  | h :: hs => startsWithCh needle (h :: hs) || containsSeq needle hs

/-- Python `needle in hay` on strings. -/
def strContains (hay needle : String) : Bool := containsSeq needle.data hay.data

/-- Python `str.lower()` (ASCII case fold suffices for the matched texts). -/
def lowerStr (s : String) : String := String.mk (s.data.map Char.toLower)

/-- Classification of a deletion outcome by `check_and_repost`
(bookbot.py:813-832): success counts as deleted; a `BadRequest` whose
lower-cased text contains a not-found phrase counts as `notFound`, one with a
cannot-delete/permission phrase as `cantDelete`; everything else is only
logged. -/
inductive DelClass where
  | deleted
  | notFound
  | cantDelete
  | otherIgnored
deriving DecidableEq

/-- The classification function of the deletion loop (bookbot.py:813-832). -/
def classifyDelete : DeleteResult → DelClass
  | .ok => .deleted
  | .badRequest e =>
    let em := lowerStr e
    if strContains em "message to delete not found" ||
        strContains em "message not found" then .notFound
    else if strContains em "message can\x27t be deleted" ||
        strContains em "can\x27t delete" ||
        strContains em "not enough rights" then .cantDelete
    else .otherIgnored
  | .otherExc => .otherIgnored

/-- The identifiers `check_and_repost` will try to delete for a record
(bookbot.py:791-803): the parsed `channel_message_ids` list when that parses
to a non-empty list, else the single legacy `channel_message_id` when truthy
(non-zero), else nothing. -/
def msgIdsToDelete (r : PostRecord) : List Nat :=
  let fromJson := match r.channel_message_ids with
    | some l => l
    | none => []
  if fromJson.isEmpty then
    if r.channel_message_id ≠ 0 then [r.channel_message_id] else []
  else fromJson

/-- Result of `check_and_repost`'s body for one selected record: the record
row afterwards, whether the skip rule fired, whether the republish step was
reached (`post_to_channel` invoked), whether it succeeded, and the publish
calls issued. -/
structure RepostStep where
  record : PostRecord
  skipped : Bool
  attempted : Bool
  succeeded : Bool
  calls : List SendCall
deriving DecidableEq

/-- How many deletion attempts the loop of bookbot.py:812-832 classifies as
not-found (`messages_not_found_count`). -/
def notFoundCount (gwDel : Nat → DeleteResult) (ids : List Nat) : Nat :=
  ids.countP (fun m => classifyDelete (gwDel m) == DelClass.notFound)

/-- The skip test of bookbot.py:835: the deletion loop classified every
identifier (of a non-empty set) as not-found. -/
def allAlreadyGone (gwDel : Nat → DeleteResult) (ids : List Nat) : Bool :=
  !ids.isEmpty && notFoundCount gwDel ids == ids.length

/-- The per-record body of `check_and_repost` (bookbot.py:787-886).  When
the skip test fires, the record is left untouched and no republish happens.
Otherwise republish from the stored `file_ids` (records still on the legacy
`image_path` format, or with no stored media, are skipped untouched); a
truthy result updates the publish fields, increments `repost_count` and sets
`last_repost`, a falsy one leaves the row unchanged.  `gwDel` gives each
deletion attempt's outcome; `send` is the publish gateway; `now` is the
repost timestamp. -/
def repost_record_step (gwDel : Nat → DeleteResult)
    (send : SendCall → Option (List Nat)) (now : Int) (r : PostRecord) :
    RepostStep :=
  if allAlreadyGone gwDel (msgIdsToDelete r) then
    ⟨r, true, false, false, []⟩
  else
    match r.file_ids with
    | some fids =>
      match post_to_channel send r.text_content fids with
      | (some l, calls) =>
        if l.isEmpty then ⟨r, false, true, false, calls⟩
        else
          ⟨{ r with channel_message_id := l.headD 0,
                    channel_message_ids := some l,
                    repost_count := r.repost_count + 1,
                    last_repost := some now }, false, true, true, calls⟩
      | (none, calls) => ⟨r, false, true, false, calls⟩
    | none => ⟨r, false, false, false, []⟩

/-- Seconds in a day; the SQL interval arithmetic works at this granularity. -/
def daySeconds : Int := 86400

/-- The selection predicate of `check_and_repost`'s query
(bookbot.py:759-768): with `interval_ago = now - intervalDays` days,
`julianday(created_at) <= julianday(interval_ago) AND (last_repost IS NULL OR
julianday(last_repost) <= julianday(interval_ago))`. -/
def postIsDue (r : PostRecord) (now : Int) (intervalDays : Nat) : Bool :=
  let cutoff := now - intervalDays * daySeconds
  decide (r.created_at ≤ cutoff) &&
    match r.last_repost with
    | none => true
    | some t => decide (t ≤ cutoff)

/-- The selection predicate in the words of the claim: `createdAt` is at
least `intervalDays` days before `now`, and `lastRepublishAt` is unset or at
least `intervalDays` days before `now`. -/
def specDue (r : PostRecord) (now : Int) (intervalDays : Nat) : Prop :=
  (intervalDays : Int) * daySeconds ≤ now - r.created_at ∧
    (r.last_repost = none ∨
      ∃ t, r.last_repost = some t ∧ (intervalDays : Int) * daySeconds ≤ now - t)

/-- The count the spec's validation sentence asks for: how many lines of the
split-and-trimmed caption are non-empty after trimming. -/
def specNonEmptyLineCount (text : String) : Nat :=
  ((pyLines text).filter (fun l => !l.isEmpty)).length

/-- The open-group entry as it stands when the debounce timer fires: the
buffered messages, the (optional) stored caption, the owner, not processed. -/
def mkOpenGroup (msgs : List Msg) (cap : Option String) (uid : Nat) : GroupDict :=
  { photos := some msgs, caption := some cap, user_id := some uid,
    processed := some false, processed_data := none }

/-- The buffered state after a sequence of fragments for one unseen group
key: `buffer_media_group` folded over the arrivals. -/
def bufferSequence (uid : Nat) (msgs : List Msg) : Option GroupDict :=
  msgs.foldl (fun st m => (buffer_media_group st m uid).1) none

/-- The media ids of a built media group are the file ids, in order. -/
lemma buildMediaGroup_map_fst (fileIds : List String) (formatted : String) :
    (buildMediaGroup fileIds formatted).map Prod.fst = fileIds := by
  simp [buildMediaGroup, List.map_map, Function.comp_def]

/-- The reconciliation selection query matches the spec sentence exactly:
due iff `created_at` is at least the interval old and `last_repost` is unset
or at least the interval old. -/
theorem claim_C4 (r : PostRecord) (now : Int) (intervalDays : Nat) :
    postIsDue r now intervalDays = true ↔ specDue r now intervalDays := by
  unfold postIsDue specDue
  cases h : r.last_repost
  all_goals simp [h]
  all_goals omega

/-- Effect of `buffer_media_group` on an open entry (both `photos` and
`caption` keys present): append the message, first truthy caption wins. -/
lemma buffer_step_open (g : GroupDict) (m : Msg) (uid : Nat) (ps : List Msg)
    (cap : Option String) (hp : g.photos = some ps) (hc : g.caption = some cap) :
    ∃ g2, buffer_media_group (some g) m uid = (some g2, false) ∧
      g2.photos = some (ps ++ [m]) ∧
      g2.caption = some (if pyTruthy m.caption && !pyTruthy cap then m.caption
        else cap) ∧
      (pyTruthy cap = true → g2.caption = some cap) ∧
      g2.user_id = g.user_id ∧ g2.processed = g.processed := by
  obtain ⟨gp, gc, gu, gpr, gpd⟩ := g
  simp only at hp hc
  subst hp
  subst hc
  cases hmc : pyTruthy m.caption with
  | false =>
    refine ⟨⟨some (ps ++ [m]), some cap, gu, gpr, gpd⟩, ?_, rfl, ?_, ?_, rfl, rfl⟩
    · simp [buffer_media_group, hmc]
    · simp [hmc]
    · intro h
      rfl
  | true =>
    cases hct : pyTruthy cap with
    | false =>
      refine ⟨⟨some (ps ++ [m]), some m.caption, gu, gpr, gpd⟩, ?_, rfl, ?_, ?_,
        rfl, rfl⟩
      · simp [buffer_media_group, hmc, hct]
      · simp [hmc, hct]
      · intro h
        simp [hct] at h
    | true =>
      refine ⟨⟨some (ps ++ [m]), some cap, gu, gpr, gpd⟩, ?_, rfl, ?_, ?_, rfl, rfl⟩
      · simp [buffer_media_group, hmc, hct]
      · simp [hmc, hct]
      · intro h
        rfl

/-- Buffering a fragment into an open group appends its message to the
ordered photo list; the caption is taken from the fragment only when the
fragment carries a (truthy) caption and the group has none yet, so an
earlier caption is never overwritten; owner and processed flag are
untouched. -/
theorem claim_C8 (g : GroupDict) (m : Msg) (uid : Nat) (ps : List Msg)
    (cap : Option String) (hp : g.photos = some ps) (hc : g.caption = some cap) :
    ∃ g2, buffer_media_group (some g) m uid = (some g2, false) ∧
      g2.photos = some (ps ++ [m]) ∧
      g2.caption = some (if pyTruthy m.caption && !pyTruthy cap then m.caption
        else cap) ∧
      (pyTruthy cap = true → g2.caption = some cap) ∧
      g2.user_id = g.user_id ∧ g2.processed = g.processed :=
  buffer_step_open g m uid ps cap hp hc

/-- Witness for `claim_C8`: a concrete fresh group and a fragment carrying a
caption. -/
theorem claim_C8_witness :
    ∃ g2, buffer_media_group (some (newGroupDict 7)) ⟨1, "f", some "t"⟩ 7 =
        (some g2, false) ∧
      g2.photos = some [⟨1, "f", some "t"⟩] ∧ g2.caption = some (some "t") := by
  obtain ⟨g2, h1, h2, h3, -, -, -⟩ :=
    claim_C8 (newGroupDict 7) ⟨1, "f", some "t"⟩ 7 [] none rfl rfl
  refine ⟨g2, h1, by simpa using h2, ?_⟩
  rw [h3]
  decide

/-- If every deletion classifies not-found, the skip test fires. -/
lemma allAlreadyGone_of_all (gwDel : Nat → DeleteResult) (ids : List Nat)
    (hne : ids ≠ [])
    (hall : ∀ m ∈ ids, classifyDelete (gwDel m) = DelClass.notFound) :
    allAlreadyGone gwDel ids = true := by
  have hnf : notFoundCount gwDel ids = ids.length :=
    List.countP_eq_length.mpr (fun a ha => by simp [hall a ha])
  simp [allAlreadyGone, hnf, hne]

/-- If some deletion does not classify not-found, the skip test cannot fire. -/
lemma allAlreadyGone_of_exists (gwDel : Nat → DeleteResult) (ids : List Nat)
    (m : Nat) (hm : m ∈ ids)
    (hnot : classifyDelete (gwDel m) ≠ DelClass.notFound) :
    allAlreadyGone gwDel ids = false := by
  have hlt : notFoundCount gwDel ids ≠ ids.length := by
    intro heq
    have := List.countP_eq_length.mp heq m hm
    simp only [beq_iff_eq] at this
    exact hnot this
  simp [allAlreadyGone, hlt]

/-- Reconciliation skip rule: for a due record with a non-empty stored
identifier set, if every deletion attempt is classified already-gone the
record is skipped whole — no republish call, no bookkeeping change — while a
forbidden or other-error deletion outcome does not prevent the republish
step from being reached. -/
theorem claim_C2 (gwDel : Nat → DeleteResult)
    (send : SendCall → Option (List Nat)) (now : Int) (intervalDays : Nat)
    (r : PostRecord) (hdue : postIsDue r now intervalDays = true)
    (hne : msgIdsToDelete r ≠ []) :
    ((∀ m ∈ msgIdsToDelete r, classifyDelete (gwDel m) = DelClass.notFound) →
      repost_record_step gwDel send now r = ⟨r, true, false, false, []⟩) ∧
    ((∃ m ∈ msgIdsToDelete r,
        (classifyDelete (gwDel m) = DelClass.cantDelete ∨
          classifyDelete (gwDel m) = DelClass.otherIgnored)) →
      ∀ fids, r.file_ids = some fids →
        (repost_record_step gwDel send now r).attempted = true) := by
  constructor
  · intro hall
    have h := allAlreadyGone_of_all gwDel (msgIdsToDelete r) hne hall
    simp [repost_record_step, h]
  · rintro ⟨m, hm, hcls⟩ fids hf
    have hnot : classifyDelete (gwDel m) ≠ DelClass.notFound := by
      rcases hcls with h | h <;> simp [h]
    have h := allAlreadyGone_of_exists gwDel (msgIdsToDelete r) m hm hnot
    simp only [repost_record_step, h, Bool.false_eq_true, if_false, hf]
    rcases hpc : post_to_channel send r.text_content fids with ⟨res, calls⟩
    cases res with
    | none => rfl
    | some l =>
      by_cases hl : l.isEmpty <;> simp [hl]

/-- The four possible outcomes of the per-record reconciliation body:
skipped (all already gone), no stored media, republish reached but failed,
republish succeeded with the gateway's new identifier list. -/
lemma repost_record_step_cases (gwDel : Nat → DeleteResult)
    (send : SendCall → Option (List Nat)) (now : Int) (r : PostRecord) :
    repost_record_step gwDel send now r = ⟨r, true, false, false, []⟩ ∨
    repost_record_step gwDel send now r = ⟨r, false, false, false, []⟩ ∨
    (∃ calls, repost_record_step gwDel send now r =
      ⟨r, false, true, false, calls⟩) ∨
    (∃ fids l calls, r.file_ids = some fids ∧
      post_to_channel send r.text_content fids = (some l, calls) ∧
      l.isEmpty = false ∧
      repost_record_step gwDel send now r =
        ⟨{ r with channel_message_id := l.headD 0,
                  channel_message_ids := some l,
                  repost_count := r.repost_count + 1,
                  last_repost := some now }, false, true, true, calls⟩) := by
  unfold repost_record_step
  by_cases hsk : allAlreadyGone gwDel (msgIdsToDelete r) = true
  · left
    simp [hsk]
  · rw [if_neg hsk]
    cases hf : r.file_ids with
    | none =>
      right; left
      rfl
    | some fids =>
      dsimp only
      rcases hpc : post_to_channel send r.text_content fids with ⟨res, calls⟩
      cases res with
      | none =>
        right; right; left
        exact ⟨calls, rfl⟩
      | some l =>
        by_cases hl : l.isEmpty = true
        · right; right; left
          exact ⟨calls, by simp [hl]⟩
        · right; right; right
          exact ⟨fids, l, calls, rfl, hpc, by simpa using hl, by
            simp [Bool.not_eq_true] at hl
            simp [hl]⟩

/-- On republish success exactly the publish-identifier fields are replaced
with the gateway's new identifier list, `repost_count` is incremented by one
and `last_repost` is set to now (the record-update expression fixes every
other field); when the republish did not succeed the whole row is
unchanged. -/
theorem claim_C6 (gwDel : Nat → DeleteResult)
    (send : SendCall → Option (List Nat)) (now : Int) (r : PostRecord) :
    ((repost_record_step gwDel send now r).succeeded = true →
      ∃ fids l calls, r.file_ids = some fids ∧
        post_to_channel send r.text_content fids = (some l, calls) ∧
        l.isEmpty = false ∧
        (repost_record_step gwDel send now r).record =
          { r with channel_message_id := l.headD 0,
                   channel_message_ids := some l,
                   repost_count := r.repost_count + 1,
                   last_repost := some now }) ∧
    ((repost_record_step gwDel send now r).succeeded = false →
      (repost_record_step gwDel send now r).record = r) := by
  rcases repost_record_step_cases gwDel send now r with
    h | h | ⟨calls, h⟩ | ⟨fids, l, calls, hf, hpc, hl, h⟩
  · exact ⟨fun hs => by simp [h] at hs, fun _ => by simp [h]⟩
  · exact ⟨fun hs => by simp [h] at hs, fun _ => by simp [h]⟩
  · exact ⟨fun hs => by simp [h] at hs, fun _ => by simp [h]⟩
  · exact ⟨fun _ => ⟨fids, l, calls, hf, hpc, hl, by simp [h]⟩,
      fun hs => by simp [h] at hs⟩

/-- `created_at` is never modified by first-publish bookkeeping or by
reconciliation, and `repost_count` never decreases and changes (by exactly
one) only when a republish succeeds. -/
theorem claim_C9 (cmid : Nat) (allIds : Option (List Nat))
    (gwDel : Nat → DeleteResult) (send : SendCall → Option (List Nat))
    (now : Int) (r : PostRecord) :
    ((applyUpdateChannelMsg cmid allIds r).created_at = r.created_at ∧
      (applyUpdateChannelMsg cmid allIds r).repost_count = r.repost_count) ∧
    ((repost_record_step gwDel send now r).record.created_at = r.created_at ∧
      r.repost_count ≤ (repost_record_step gwDel send now r).record.repost_count ∧
      (repost_record_step gwDel send now r).record.repost_count =
        (if (repost_record_step gwDel send now r).succeeded = true then
          r.repost_count + 1 else r.repost_count)) := by
  refine ⟨⟨?_, ?_⟩, ?_⟩
  · cases allIds <;> rfl
  · cases allIds <;> rfl
  · rcases repost_record_step_cases gwDel send now r with
      h | h | ⟨calls, h⟩ | ⟨fids, l, calls, hf, hpc, hl, h⟩ <;>
      simp [h]

/-- Implicit claim: republishing re-validates the stored text; a stored text
of fewer than 8 trimmed lines makes `post_to_channel` return `None` without
any gateway call, so reconciliation posts nothing for such a record and
leaves it entirely unchanged. -/
theorem claim_C10 (gwDel : Nat → DeleteResult)
    (send : SendCall → Option (List Nat)) (now : Int) (r : PostRecord)
    (fids : List String) (hf : r.file_ids = some fids)
    (h8 : (pyLines r.text_content).length < 8) :
    post_to_channel send r.text_content fids = (none, []) ∧
    (repost_record_step gwDel send now r).record = r ∧
    (repost_record_step gwDel send now r).calls = [] ∧
    (repost_record_step gwDel send now r).succeeded = false := by
  have hptc : post_to_channel send r.text_content fids = (none, []) := by
    simp [post_to_channel, h8]
  refine ⟨hptc, ?_⟩
  by_cases hsk : allAlreadyGone gwDel (msgIdsToDelete r) = true
  · simp [repost_record_step, hsk]
  · simp [repost_record_step, hsk, hf, hptc]

/-- The spec's scenario caption: eight lines, one per field. -/
def eightLineCaption : String := "Title\nAuthor\n200\nGood\nHard\n2020\nNone\n50"

/-- A concrete stored record with two published identifiers, due at
`now = 691200` (8 days) for a 7-day interval. -/
def dueRecordA : PostRecord :=
  { user_id := 1, message_id := 2, channel_message_id := 5,
    channel_message_ids := some [5, 6], text_content := eightLineCaption,
    image_path := none, file_ids := some ["fA", "fB"], created_at := 0,
    repost_count := 0, last_repost := none }

/-- Witness for `claim_C2`: both deletions report the message is gone, so
the record is skipped untouched. -/
theorem claim_C2_witness :
    repost_record_step
      (fun _ => DeleteResult.badRequest "Message to delete not found")
      (fun _ => some [9]) 691200 dueRecordA =
      ⟨dueRecordA, true, false, false, []⟩ :=
  (claim_C2 (fun _ => DeleteResult.badRequest "Message to delete not found")
    (fun _ => some [9]) 691200 7 dueRecordA (by decide) (by decide)).1
    (by decide)

/-- A stored record whose text has only three lines. -/
def shortTextRecord : PostRecord :=
  { user_id := 1, message_id := 2, channel_message_id := 5,
    channel_message_ids := some [5], text_content := "a\nb\nc",
    image_path := none, file_ids := some ["f1"], created_at := 0,
    repost_count := 0, last_repost := none }

/-- Witness for `claim_C10`: a three-line stored text is not reposted and
the record stays unchanged. -/
theorem claim_C10_witness :
    (repost_record_step (fun _ => DeleteResult.ok) (fun _ => some [9]) 0
        shortTextRecord).record = shortTextRecord ∧
    (repost_record_step (fun _ => DeleteResult.ok) (fun _ => some [9]) 0
        shortTextRecord).calls = [] ∧
    (repost_record_step (fun _ => DeleteResult.ok) (fun _ => some [9]) 0
        shortTextRecord).succeeded = false :=
  (claim_C10 (fun _ => DeleteResult.ok) (fun _ => some [9]) 0 shortTextRecord
    ["f1"] rfl (by decide)).2

/-- When every gateway send raises, `post_to_channel` yields no message. -/
lemma post_to_channel_fst_none (send : SendCall → Option (List Nat))
    (text : String) (fids : List String) (h : ∀ c, send c = none) :
    (post_to_channel send text fids).1 = none := by
  unfold post_to_channel
  by_cases h8 : (pyLines text).length < 8
  · simp [h8]
  · cases fids with
    | nil => simp [h8]
    | cons f fs =>
      simp only [h8, if_false, h]
      split <;> rfl

/-- The first-publish operation writes the record durably before the gateway
call: the row — with `channel_message_id = 0` and NULL
`channel_message_ids`, i.e. no published identifiers — is appended by
`save_post` first, and when the gateway call times out or fails the
operation returns one of the two transient-failure messages while the
database still holds exactly that empty-identifier row. -/
theorem claim_C5 (timedOut : Bool) (send : SendCall → Option (List Nat))
    (now : Int) (text : String) (pcount : Nat) (fids : List String)
    (uid mid : Nat) (img : Bool) (db : List PostRecord)
    (hfail : timedOut = true ∨ ∀ c, send c = none) :
    (post_book_content timedOut send now text pcount fids uid mid img db).db =
      db ++ [mkSavedRecord uid mid 0 text fids now] ∧
    (mkSavedRecord uid mid 0 text fids now).channel_message_id = 0 ∧
    (mkSavedRecord uid mid 0 text fids now).channel_message_ids = none ∧
    ((post_book_content timedOut send now text pcount fids uid mid img db).userMsg =
        timeoutPostMsg ∨
      (post_book_content timedOut send now text pcount fids uid mid img db).userMsg =
        channelFailMsg) := by
  cases timedOut with
  | true => exact ⟨rfl, rfl, rfl, Or.inl rfl⟩
  | false =>
    have h : ∀ c, send c = none := by
      rcases hfail with h | h
      · cases h
      · exact h
    rcases hpc : post_to_channel send text fids with ⟨res, calls⟩
    have hres : res = none := by
      have h1 := post_to_channel_fst_none send text fids h
      rw [hpc] at h1
      exact h1
    subst hres
    refine ⟨?_, rfl, rfl, Or.inr ?_⟩
    · simp [post_book_content, save_post, hpc]
    · simp [post_book_content, save_post, hpc]

/-- Reading the freshly appended row. -/
lemma get_append_length (db : List PostRecord) (a : PostRecord) :
    (db ++ [a]).get? db.length = some a := by
  induction db with
  | nil => rfl
  | cons x xs ih => simpa using ih

/-- Updating the freshly appended row rewrites just that row. -/
lemma set_append_length (db : List PostRecord) (a b : PostRecord) :
    (db ++ [a]).set db.length b = db ++ [b] := by
  induction db with
  | nil => rfl
  | cons x xs ih => simp [List.set, ih]

/-- `update_channel_message_id` on the row just inserted. -/
lemma update_cmid_append (db : List PostRecord) (a : PostRecord) (cmid : Nat)
    (ids : Option (List Nat)) :
    update_channel_message_id (db ++ [a]) db.length cmid ids =
      db ++ [applyUpdateChannelMsg cmid ids a] := by
  simp [update_channel_message_id, dbUpdate, get_append_length, set_append_length]

/-- Writing back the channel message ids never touches the stored media. -/
lemma applyUpdateChannelMsg_file_ids (cmid : Nat) (ids : Option (List Nat))
    (r : PostRecord) : (applyUpdateChannelMsg cmid ids r).file_ids = r.file_ids := by
  cases ids <;> rfl

/-- With a valid text and non-empty media list, `post_to_channel` issues
exactly one gateway call carrying the file ids in order and the formatted
text. -/
lemma post_to_channel_calls (send : SendCall → Option (List Nat))
    (text : String) (fids : List String) (h8 : ¬(pyLines text).length < 8)
    (hne : fids ≠ []) :
    (post_to_channel send text fids).2 = [⟨fids, formatPost (pyLines text)⟩] := by
  unfold post_to_channel
  cases fids with
  | nil => exact absurd rfl hne
  | cons f fs =>
    by_cases hlen : 1 < (f :: fs).length
    · have hlen2 : 0 < fs.length := by
        simp only [List.length_cons] at hlen
        omega
      simp [h8, hlen2, buildMediaGroup_map_fst]
    · have hfs : fs = [] := by
        cases fs with
        | nil => rfl
        | cons g gs => simp at hlen
      subst hfs
      simp [h8, hlen]

/-- Same fact lifted through `post_book_content` (no timeout). -/
lemma post_book_content_calls (send : SendCall → Option (List Nat)) (now : Int)
    (text : String) (pcount : Nat) (fids : List String) (uid mid : Nat)
    (img : Bool) (db : List PostRecord) (h8 : ¬(pyLines text).length < 8)
    (hne : fids ≠ []) :
    (post_book_content false send now text pcount fids uid mid img db).calls =
      [⟨fids, formatPost (pyLines text)⟩] := by
  have hcalls := post_to_channel_calls send text fids h8 hne
  unfold post_book_content
  rcases hpc : post_to_channel send text fids with ⟨res, calls⟩
  rw [hpc] at hcalls
  simp only at hcalls
  subst hcalls
  cases res with
  | none => rfl
  | some l =>
    by_cases hl : l.isEmpty = true <;> simp [hl]

/-- `post_book_content` (no timeout) appends exactly one row, and that row
stores the submitted media list, text and creation time. -/
lemma post_book_content_shape (send : SendCall → Option (List Nat)) (now : Int)
    (text : String) (pcount : Nat) (fids : List String) (uid mid : Nat)
    (img : Bool) (db : List PostRecord) :
    ∃ r, (post_book_content false send now text pcount fids uid mid img db).db =
        db ++ [r] ∧
      r.file_ids = some fids ∧ r.text_content = text ∧ r.created_at = now := by
  unfold post_book_content save_post
  rcases hpc : post_to_channel send text fids with ⟨res, calls⟩
  cases res with
  | none => exact ⟨mkSavedRecord uid mid 0 text fids now, rfl, rfl, rfl, rfl⟩
  | some l =>
    by_cases hl : l.isEmpty = true
    · simp only [hl, if_true]
      exact ⟨mkSavedRecord uid mid 0 text fids now, rfl, rfl, rfl, rfl⟩
    · simp only [hl, if_false]
      refine ⟨applyUpdateChannelMsg (l.headD 0) (some l)
        (mkSavedRecord uid mid 0 text fids now), ?_, ?_, ?_, ?_⟩
      · exact update_cmid_append db (mkSavedRecord uid mid 0 text fids now)
          (l.headD 0) (some l)
      · rw [applyUpdateChannelMsg_file_ids]
        rfl
      · rfl
      · rfl

/-- A non-empty list is not `isEmpty`. -/
lemma isEmpty_false_of_ne_nil {α : Type} {l : List α} (h : l ≠ []) :
    l.isEmpty = false := by
  cases l with
  | nil => exact absurd rfl h
  | cons x xs => rfl

/-- Firing the debounce handler on an open group with a caption of at least
8 trimmed lines auto-posts and replaces the entry with the processed-data
dict. -/
lemma process_media_group_accept (send : SendCall → Option (List Nat))
    (now : Int) (db : List PostRecord) (uid : Nat) (msgs : List Msg)
    (c : String) (hne : msgs ≠ []) (h8 : 8 ≤ (pyLines c).length) :
    process_media_group false send now (some (mkOpenGroup msgs (some c) uid)) db =
      ⟨some (processedEntry ⟨msgs.map Msg.fileId, some c, uid⟩),
       (post_book_content false send now c msgs.length (msgs.map Msg.fileId)
         uid (msgs.headD ⟨0, "", none⟩).messageId true db).db,
       [(post_book_content false send now c msgs.length (msgs.map Msg.fileId)
         uid (msgs.headD ⟨0, "", none⟩).messageId true db).userMsg],
       (post_book_content false send now c msgs.length (msgs.map Msg.fileId)
         uid (msgs.headD ⟨0, "", none⟩).messageId true db).calls⟩ := by
  have hie := isEmpty_false_of_ne_nil hne
  unfold process_media_group mkOpenGroup
  simp [hie, h8]

/-- Firing the debounce handler on an open group with a caption of fewer
than 8 trimmed lines rejects: no publish call, the rejection reply, the
database untouched. -/
lemma process_media_group_reject (send : SendCall → Option (List Nat))
    (now : Int) (db : List PostRecord) (uid : Nat) (msgs : List Msg)
    (c : String) (hne : msgs ≠ []) (h8 : (pyLines c).length < 8) :
    process_media_group false send now (some (mkOpenGroup msgs (some c) uid)) db =
      ⟨some (processedEntry ⟨msgs.map Msg.fileId, some c, uid⟩), db,
       [rejectFewLinesMsg], []⟩ := by
  have hie := isEmpty_false_of_ne_nil hne
  have h8n : ¬ 8 ≤ (pyLines c).length := by omega
  unfold process_media_group mkOpenGroup
  simp [hie, h8n]

/-- Firing the debounce handler on an already-handled entry (the
processed-data dict) is a no-op: the `KeyError` on the missing `photos` key
is swallowed, nothing is sent and nothing is replied. -/
lemma process_media_group_processedEntry (timedOut : Bool)
    (send : SendCall → Option (List Nat)) (now : Int) (db : List PostRecord)
    (pd : ProcessedData) :
    process_media_group timedOut send now (some (processedEntry pd)) db =
      ⟨some (processedEntry pd), db, [], []⟩ := rfl

/-- A caption of seven line breaks: it splits into 8 lines, every one empty
after trimming. -/
def blankCaption : String := "\n\n\n\n\n\n\n"

/-- Counterexample to claim C1 as stated: this caption has zero
non-empty-after-trim lines, yet the handler accepts it and issues a publish
call, because the code counts all split lines (bookbot.py:362-364), not the
non-empty ones. -/
theorem claim_C1_counterexample :
    specNonEmptyLineCount blankCaption = 0 ∧
    (process_media_group false (fun _ => some [5]) 0
        (some (mkOpenGroup [⟨1, "f", some blankCaption⟩] (some blankCaption) 1))
        []).calls.length = 1 := by
  constructor
  · decide
  · decide

/-- Amended claim C1: validation accepts iff splitting the caption on line
breaks yields at least 8 lines — each line trimmed, empty lines counted —
and on acceptance the one publish call carries the text formatted with
lines 0–7 mapped positionally to title, author, page count, condition,
cover type, publication year, extra notes and price (see `formatPost`);
with fewer than 8 lines the submission is rejected with the rejection reply
and nothing is published or stored. -/
theorem claim_C1_amended (send : SendCall → Option (List Nat)) (now : Int)
    (db : List PostRecord) (uid : Nat) (msgs : List Msg) (c : String)
    (hne : msgs ≠ []) :
    ((process_media_group false send now (some (mkOpenGroup msgs (some c) uid))
        db).calls ≠ [] ↔ 8 ≤ (pyLines c).length) ∧
    (8 ≤ (pyLines c).length →
      (process_media_group false send now (some (mkOpenGroup msgs (some c) uid))
        db).calls = [⟨msgs.map Msg.fileId, formatPost (pyLines c)⟩]) ∧
    ((pyLines c).length < 8 →
      (process_media_group false send now (some (mkOpenGroup msgs (some c) uid))
          db).replies = [rejectFewLinesMsg] ∧
      (process_media_group false send now (some (mkOpenGroup msgs (some c) uid))
          db).db = db) := by
  by_cases h8 : 8 ≤ (pyLines c).length
  · have hmapne : msgs.map Msg.fileId ≠ [] := by simp [hne]
    have hcalls : (process_media_group false send now
        (some (mkOpenGroup msgs (some c) uid)) db).calls =
        [⟨msgs.map Msg.fileId, formatPost (pyLines c)⟩] := by
      rw [process_media_group_accept send now db uid msgs c hne h8]
      exact post_book_content_calls send now c msgs.length (msgs.map Msg.fileId)
        uid (msgs.headD ⟨0, "", none⟩).messageId true db (by omega) hmapne
    refine ⟨⟨fun _ => h8, fun _ => ?_⟩, fun _ => hcalls,
      fun hlt => absurd h8 (by omega)⟩
    rw [hcalls]
    simp
  · have hlt : (pyLines c).length < 8 := by omega
    rw [process_media_group_reject send now db uid msgs c hne hlt]
    exact ⟨by simp [h8], fun h => absurd h h8, fun _ => ⟨rfl, rfl⟩⟩

/-- Witness for `claim_C1_amended`: one photo with the spec's eight-line
scenario caption is accepted and published with the formatted text. -/
theorem claim_C1_witness :
    (process_media_group false (fun _ => some [9]) 0
        (some (mkOpenGroup [⟨1, "f1", some eightLineCaption⟩]
          (some eightLineCaption) 1)) []).calls =
      [⟨["f1"], formatPost (pyLines eightLineCaption)⟩] := by
  have h := claim_C1_amended (fun _ => some [9]) 0 [] 1
    [⟨1, "f1", some eightLineCaption⟩] eightLineCaption (by decide)
  simpa using h.2.1 (by decide)

/-- One debounce expiry on a settled-and-valid group publishes exactly once
and replies exactly once; any further expiry on the resulting entry is a
complete no-op (no publish, no reply, entry and database untouched), so the
group yields one publish call and one user-facing result no matter how many
times the handler fires. -/
theorem claim_C3 (send : SendCall → Option (List Nat)) (now : Int)
    (db db2 : List PostRecord) (uid : Nat) (msgs : List Msg) (c : String)
    (hne : msgs ≠ []) (h8 : 8 ≤ (pyLines c).length) :
    (process_media_group false send now (some (mkOpenGroup msgs (some c) uid))
        db).calls.length = 1 ∧
    (process_media_group false send now (some (mkOpenGroup msgs (some c) uid))
        db).replies.length = 1 ∧
    process_media_group false send now
        (process_media_group false send now
          (some (mkOpenGroup msgs (some c) uid)) db).group db2 =
      ⟨(process_media_group false send now
          (some (mkOpenGroup msgs (some c) uid)) db).group, db2, [], []⟩ := by
  have hmapne : msgs.map Msg.fileId ≠ [] := by simp [hne]
  rw [process_media_group_accept send now db uid msgs c hne h8]
  refine ⟨?_, rfl, ?_⟩
  · rw [post_book_content_calls send now c msgs.length (msgs.map Msg.fileId)
      uid (msgs.headD ⟨0, "", none⟩).messageId true db (by omega) hmapne]
    rfl
  · exact process_media_group_processedEntry false send now db2
      ⟨msgs.map Msg.fileId, some c, uid⟩

/-- Witness for `claim_C3`: after the first expiry on a concrete valid
group, a second expiry is a no-op. -/
theorem claim_C3_witness :
    process_media_group false (fun _ => some [9]) 0
      (process_media_group false (fun _ => some [9]) 0
        (some (mkOpenGroup [⟨1, "f1", some eightLineCaption⟩]
          (some eightLineCaption) 1)) []).group [] =
      ⟨(process_media_group false (fun _ => some [9]) 0
        (some (mkOpenGroup [⟨1, "f1", some eightLineCaption⟩]
          (some eightLineCaption) 1)) []).group, [], [], []⟩ :=
  (claim_C3 (fun _ => some [9]) 0 [] [] 1 [⟨1, "f1", some eightLineCaption⟩]
    eightLineCaption (by decide) (by decide)).2.2

/-- Witness for `claim_C5`: a timed-out first publish of the scenario
caption leaves exactly the empty-identifier row and reports the timeout
message. -/
theorem claim_C5_witness :
    (post_book_content true (fun _ => some [9]) 0 eightLineCaption 1 ["f1"]
        1 2 false []).db = [mkSavedRecord 1 2 0 eightLineCaption ["f1"] 0] ∧
    (mkSavedRecord 1 2 0 eightLineCaption ["f1"] 0).channel_message_id = 0 ∧
    (mkSavedRecord 1 2 0 eightLineCaption ["f1"] 0).channel_message_ids = none ∧
    ((post_book_content true (fun _ => some [9]) 0 eightLineCaption 1 ["f1"]
        1 2 false []).userMsg = timeoutPostMsg ∨
      (post_book_content true (fun _ => some [9]) 0 eightLineCaption 1 ["f1"]
        1 2 false []).userMsg = channelFailMsg) := by
  have h := claim_C5 true (fun _ => some [9]) 0 eightLineCaption 1 ["f1"] 1 2
    false [] (Or.inl rfl)
  simpa using h

/-- Folding more fragments into an open group keeps the photo list an
append and both keys present. -/
lemma buffer_fold_photos (uid : Nat) (msgs : List Msg) :
    ∀ (g : GroupDict) (ps : List Msg) (cap : Option String),
      g.photos = some ps → g.caption = some cap →
      ∃ g2 cap2,
        msgs.foldl (fun st m => (buffer_media_group st m uid).1) (some g) =
          some g2 ∧
        g2.photos = some (ps ++ msgs) ∧ g2.caption = some cap2 := by
  induction msgs with
  | nil =>
    intro g ps cap hp hc
    exact ⟨g, cap, rfl, by simp [hp], hc⟩
  | cons m ms ih =>
    intro g ps cap hp hc
    obtain ⟨g1, h1, hp1, hc1, -, -, -⟩ := buffer_step_open g m uid ps cap hp hc
    obtain ⟨g2, cap2, h2, hp2, hc2⟩ := ih g1 (ps ++ [m]) _ hp1 hc1
    refine ⟨g2, cap2, ?_, by simpa using hp2, hc2⟩
    have hfst : (buffer_media_group (some g) m uid).1 = some g1 := by
      rw [h1]
    simpa [hfst] using h2

/-- The first fragment creates the entry and buffers exactly itself. -/
lemma buffer_first (uid : Nat) (m : Msg) :
    ∃ g1 cap1, (buffer_media_group none m uid).1 = some g1 ∧
      g1.photos = some [m] ∧ g1.caption = some cap1 := by
  obtain ⟨g1, h1, hp1, hc1, -, -, -⟩ :=
    buffer_step_open (newGroupDict uid) m uid [] none rfl rfl
  have heq : buffer_media_group none m uid =
      buffer_media_group (some (newGroupDict uid)) m uid := rfl
  exact ⟨g1, _, by rw [heq, h1], by simpa using hp1, hc1⟩

/-- A non-empty fragment sequence ends buffered with exactly those messages
in arrival order. -/
lemma bufferSequence_photos (uid : Nat) (msgs : List Msg) (hne : msgs ≠ []) :
    ∃ g cap, bufferSequence uid msgs = some g ∧ g.photos = some msgs ∧
      g.caption = some cap := by
  cases msgs with
  | nil => exact absurd rfl hne
  | cons m ms =>
    obtain ⟨g1, cap1, h1, hp1, hc1⟩ := buffer_first uid m
    obtain ⟨g2, cap2, h2, hp2, hc2⟩ :=
      buffer_fold_photos uid ms g1 [m] cap1 hp1 hc1
    refine ⟨g2, cap2, ?_, by simpa using hp2, hc2⟩
    show ms.foldl (fun st m => (buffer_media_group st m uid).1)
      ((buffer_media_group none m uid).1) = some g2
    rw [h1]
    exact h2

/-- The ordered media references survive the whole cycle unchanged: the
aggregator buffers fragments in arrival order; the settled group is stored
with `file_ids` in that order and first-published with exactly that ordered
list; and every reconciliation republish of a record holding that list
sends it unchanged and stores it back unchanged. -/
theorem claim_C7 (send : SendCall → Option (List Nat))
    (gwDel : Nat → DeleteResult) (now now2 : Int) (db : List PostRecord)
    (uid : Nat) (msgs : List Msg) (c : String) (hne : msgs ≠ [])
    (h8 : 8 ≤ (pyLines c).length) (hdel : ∀ m, gwDel m = DeleteResult.ok) :
    (∃ g, bufferSequence uid msgs = some g ∧ g.photos = some msgs) ∧
    ((process_media_group false send now (some (mkOpenGroup msgs (some c) uid))
        db).calls.map SendCall.mediaRefs = [msgs.map Msg.fileId] ∧
      ∃ r, (process_media_group false send now
          (some (mkOpenGroup msgs (some c) uid)) db).db = db ++ [r] ∧
        r.file_ids = some (msgs.map Msg.fileId)) ∧
    (∀ r : PostRecord, r.file_ids = some (msgs.map Msg.fileId) →
      r.text_content = c →
      (repost_record_step gwDel send now2 r).calls.map SendCall.mediaRefs =
        [msgs.map Msg.fileId] ∧
      (repost_record_step gwDel send now2 r).record.file_ids =
        some (msgs.map Msg.fileId)) := by
  have hmapne : msgs.map Msg.fileId ≠ [] := by simp [hne]
  have h8n : ¬(pyLines c).length < 8 := by omega
  refine ⟨?_, ⟨?_, ?_⟩, ?_⟩
  · obtain ⟨g, cap, hg, hp, -⟩ := bufferSequence_photos uid msgs hne
    exact ⟨g, hg, hp⟩
  · rw [process_media_group_accept send now db uid msgs c hne h8,
      post_book_content_calls send now c msgs.length (msgs.map Msg.fileId)
        uid (msgs.headD ⟨0, "", none⟩).messageId true db h8n hmapne]
    rfl
  · rw [process_media_group_accept send now db uid msgs c hne h8]
    exact post_book_content_shape send now c msgs.length (msgs.map Msg.fileId)
      uid (msgs.headD ⟨0, "", none⟩).messageId true db |>.imp
      (fun r hr => ⟨hr.1, hr.2.1⟩)
  · intro r hf ht
    have hsk : allAlreadyGone gwDel (msgIdsToDelete r) = false := by
      cases hids : msgIdsToDelete r with
      | nil => simp [allAlreadyGone]
      | cons i is =>
        exact allAlreadyGone_of_exists gwDel (i :: is) i (by simp)
          (by simp [hdel i, classifyDelete])
    have hcalls := post_to_channel_calls send c (msgs.map Msg.fileId) h8n hmapne
    unfold repost_record_step
    simp only [hsk, Bool.false_eq_true, if_false, hf]
    rw [ht]
    rcases hpc : post_to_channel send c (msgs.map Msg.fileId) with ⟨res, calls⟩
    rw [hpc] at hcalls
    simp only at hcalls
    subst hcalls
    cases res with
    | none => exact ⟨rfl, hf⟩
    | some l =>
      by_cases hl : l.isEmpty = true
      · simp only [hl, if_true]
        exact ⟨rfl, hf⟩
      · simp only [Bool.not_eq_true] at hl
        simp only [hl, Bool.false_eq_true, if_false]
        exact ⟨rfl, trivial⟩

/-- Witness for `claim_C7`: two concrete fragments, the second carrying the
scenario caption, buffer in arrival order. -/
theorem claim_C7_witness :
    ∃ g, bufferSequence 1
        [⟨1, "f1", none⟩, ⟨2, "f2", some eightLineCaption⟩] = some g ∧
      g.photos = some [⟨1, "f1", none⟩, ⟨2, "f2", some eightLineCaption⟩] :=
  (claim_C7 (fun _ => some [9, 10]) (fun _ => DeleteResult.ok) 0 0 [] 1
    [⟨1, "f1", none⟩, ⟨2, "f2", some eightLineCaption⟩] eightLineCaption
    (by decide) (by decide) (fun m => rfl)).1

end BookBot
